import Mathlib

/-!
Shallow embedding of the InvenTree frontend form-field subsystem:
the generic field renderer (`ApiFormField.tsx`) and the searchable
related-entity picker (`RelatedModelField.tsx`).

JavaScript numbers are modelled by `JSNum` (NaN, the two infinities, or a
finite value represented as an exact rational); raw form values are the
JSON scalars that can be bound to a field.  Stateful React code is embedded
as explicit state-passing functions, and the render tree as an inductive
`RenderedField` value carrying exactly the props the source passes to each
widget.
-/

namespace InvenTree

/-- Model of a JavaScript number: NaN, positive or negative infinity, or a
finite value.  Finite values are modelled as exact rationals; the claims
settled here concern parse failure and fallback behaviour, which do not
depend on binary floating-point rounding. -/
inductive JSNum where
  | nan
  | posInf
  | negInf
  | fin (q : ℚ)
deriving DecidableEq, Repr

/-- JavaScript `isNaN` on a number. -/
def jsIsNaN : JSNum → Bool
  | .nan => true
  | _ => false

/-- JavaScript `isFinite` on a number. -/
def jsIsFinite : JSNum → Bool
  | .fin _ => true
  | _ => false

/-- A raw JavaScript scalar value as held in the form-state container:
`undefined`, `null`, a boolean, a number, or a string. -/
inductive RawValue where
  | undef
  | null
  | bool (b : Bool)
  | num (n : JSNum)
  | str (s : String)
deriving DecidableEq, Repr

/-- JavaScript truthiness of a raw value: `undefined`, `null`, `false`,
`0`, `NaN` and the empty string are falsy; everything else is truthy. -/
def jsTruthy : RawValue → Bool
  | .undef => false
  | .null => false
  | .bool b => b
  | .num .nan => false
  | .num (.fin q) => decide (q ≠ 0)
  | .num _ => true
  | .str s => decide (s ≠ "")

/-- JavaScript nullishness (the left operand test of `??`): only
`undefined` and `null` are nullish. -/
def jsNullish : RawValue → Bool
  | .undef => true
  | .null => true
  | _ => false

/-- Numeric value of a decimal digit character. -/
def digitVal (c : Char) : Nat := c.toNat - Char.toNat '0'

/-- Value of a string of decimal digits, most significant first. -/
def digitsToNat (ds : List Char) : Nat :=
  ds.foldl (fun a c => a * 10 + digitVal c) 0

/-- Hexadecimal digit test, as used by `parseInt` after a `0x` prefix. -/
def isHexDigit (c : Char) : Bool :=
  c.isDigit || ('a' ≤ c && c ≤ 'f') || ('A' ≤ c && c ≤ 'F')

/-- Value of one hexadecimal digit character. -/
def hexVal (c : Char) : Nat :=
  if c.isDigit then digitVal c
  else if 'a' ≤ c ∧ c ≤ 'f' then c.toNat - Char.toNat 'a' + 10
  else c.toNat - Char.toNat 'A' + 10

/-- Value of a string of hexadecimal digits, most significant first. -/
def hexDigitsToNat (ds : List Char) : Nat :=
  ds.foldl (fun a c => a * 16 + hexVal c) 0

/-- Read an optional leading sign character, returning the sign and the
remaining characters. -/
def readSign : List Char → Int × List Char
  | '-' :: cs => (-1, cs)
  | '+' :: cs => (1, cs)
  | cs => (1, cs)

/-- JavaScript `parseInt(s)` (radix argument omitted): skip leading
whitespace, read an optional sign, then either a `0x`-prefixed run of
hexadecimal digits or a run of decimal digits; trailing garbage is
ignored, and if no digits are found the result is NaN. -/
def jsParseInt (s : String) : JSNum :=
  let (sgn, cs) := readSign (s.data.dropWhile Char.isWhitespace)
  let hexRest : Option (List Char) :=
    match cs with
    | '0' :: 'x' :: rest => some rest
    | '0' :: 'X' :: rest => some rest
    | _ => none
  match hexRest with
  | some rest =>
    let ds := rest.takeWhile isHexDigit
    if ds.isEmpty then .nan
    else .fin ((sgn * (hexDigitsToNat ds : Int) : Int) : ℚ)
  | none =>
    let ds := cs.takeWhile Char.isDigit
    if ds.isEmpty then .nan
    else .fin ((sgn * (digitsToNat ds : Int) : Int) : ℚ)

/-- JavaScript `parseFloat(s)`: skip leading whitespace, read an optional
sign, then either the literal `Infinity` or a decimal mantissa
(`digits [. digits]`, at least one digit in total) with an optional
exponent part; trailing garbage is ignored, and if no valid prefix exists
the result is NaN. -/
def jsParseFloat (s : String) : JSNum :=
  let (sgn, cs) := readSign (s.data.dropWhile Char.isWhitespace)
  if cs.take 8 = "Infinity".data then
    if sgn = 1 then .posInf else .negInf
  else
    let ip := cs.takeWhile Char.isDigit
    let cs1 := cs.dropWhile Char.isDigit
    let fpRest : List Char × List Char :=
      match cs1 with
      | '.' :: rest => (rest.takeWhile Char.isDigit, rest.dropWhile Char.isDigit)
      | _ => ([], cs1)
    let fp := fpRest.1
    let cs2 := fpRest.2
    if ip.isEmpty && fp.isEmpty then .nan
    else
      let mantNum : Int :=
        sgn * ((digitsToNat ip * 10 ^ fp.length + digitsToNat fp : Nat) : Int)
      let ex : Int :=
        match cs2 with
        | 'e' :: rest | 'E' :: rest =>
          let (esgn, rest2) := readSign rest
          let eds := rest2.takeWhile Char.isDigit
          if eds.isEmpty then 0 else esgn * (digitsToNat eds : Int)
        | _ => 0
      if 0 ≤ ex then
        .fin (mkRat (mantNum * (10 : Int) ^ ex.toNat) (10 ^ fp.length))
      else
        .fin (mkRat mantNum (10 ^ (fp.length + (-ex).toNat)))

/-- Fractional decimal digits of a remainder over a denominator, up to a
fuel bound, stopping early if the expansion terminates. -/
def fracDigits : Nat → Nat → Nat → List Char
  | 0, _, _ => []
  | _ + 1, 0, _ => []
  | fuel + 1, r, d =>
    Char.ofNat (Char.toNat '0' + r * 10 / d) :: fracDigits fuel (r * 10 % d) d

/-- Decimal string of a finite number.  Integers print exactly as
JavaScript prints them; for non-integers the exact decimal expansion is
produced when it terminates within 20 fractional digits, and a 20-digit
truncation otherwise (an approximation of the shortest-round-trip printing
JavaScript uses; no claim settled here depends on this case). -/
def ratToString (q : ℚ) : String :=
  if q.den = 1 then toString q.num
  else
    let sgn := if q < 0 then "-" else ""
    let n := q.num.natAbs
    sgn ++ toString (n / q.den) ++ "." ++ String.mk (fracDigits 20 (n % q.den) q.den)

/-- JavaScript `String(n)` for a number. -/
def jsNumToString : JSNum → String
  | .nan => "NaN"
  | .posInf => "Infinity"
  | .negInf => "-Infinity"
  | .fin q => ratToString q

/-- JavaScript string conversion of a raw value, as applied implicitly by
`parseInt` and `parseFloat` to their argument. -/
def jsToString : RawValue → String
  | .undef => "undefined"
  | .null => "null"
  | .bool true => "true"
  | .bool false => "false"
  | .num n => jsNumToString n
  | .str s => s

/-- The declarative field definition `ApiFormFieldType` of
`ApiFormField.tsx`.  At runtime `field_type` is a string supplied by the
API (the TypeScript union is erased), so it is modelled as an optional
string.  Attributes whose internal structure no settled claim inspects
(icons, renderers, callbacks, nested child definitions, pre/post content)
are modelled as abstract handles (`Option Nat`): what matters is whether
they are present and whether they are forwarded or stripped. -/
structure ApiFormFieldType where
  label : Option String := none
  value : RawValue := .undef
  default : RawValue := .undef
  icon : Option Nat := none
  field_type : Option String := none
  api_url : Option String := none
  model : Option String := none
  modelRenderer : Option Nat := none
  filters : List (String × String) := []
  children : Option Nat := none
  required : Option Bool := none
  choices : List RawValue := []
  hidden : Option Bool := none
  disabled : Option Bool := none
  read_only : Option Bool := none
  placeholder : Option String := none
  description : Option String := none
  preFieldContent : Option Nat := none
  postFieldContent : Option Nat := none
  onValueChange : Option Nat := none
  adjustFilters : Option Nat := none
deriving DecidableEq, Repr

/-- Observable effects of the change handlers on the shared form state:
a write of a value under a field name through the controller
(`field.onChange`), an update of the locally tracked primary key
(`setPk`), or an invocation of the definition-supplied value-change
callback. -/
inductive FormEvent where
  | formWrite (fieldName : String) (v : RawValue)
  | setPkEvent (pk : Option Int)
  | valueChangeCallback (v : RawValue)
deriving DecidableEq, Repr

/-- The `onChange` helper of `ApiFormField`: write the new value into the
form-state container under the field name, then run the optional
value-change callback with the same value. -/
def genericOnChange (fieldName : String) (d : ApiFormFieldType) (v : RawValue) :
    List FormEvent :=
  .formWrite fieldName v ::
    (match d.onValueChange with
     | some _ => [.valueChangeCallback v]
     | none => [])

/-- The `reducedDefinition` memo of `ApiFormField`: the definition with
`onValueChange`, `adjustFilters`, `read_only` and `children` overwritten
with `undefined` before being spread into the widget. -/
def reducedDefinition (d : ApiFormFieldType) : ApiFormFieldType :=
  { d with
    onValueChange := none
    adjustFilters := none
    read_only := none
    children := none }

/-- The value-synchronisation effect of `ApiFormField`: for non-nested
fields, a defined `definition.value` is pushed into the form state;
otherwise the bound form value is left as it is. -/
def valueSyncEffect (d : ApiFormFieldType) (formValue : RawValue) : RawValue :=
  if d.field_type = some "nested object" then formValue
  else if d.value ≠ .undef then d.value
  else formValue

/-- The `numericalValue` memo of `ApiFormField`: `integer` fields parse
the bound value with `parseInt`, the floating-point field types with
`parseFloat`, every other type leaves the initial `0`; a NaN or
non-finite result falls back to `0`.  The `?? 0` after each parse in the
source is the identity, since `parseInt` and `parseFloat` never return a
nullish value. -/
def numericalValue (field_type : Option String) (value : RawValue) : JSNum :=
  let val : JSNum :=
    if field_type = some "integer" then jsParseInt (jsToString value)
    else if field_type = some "decimal" ∨ field_type = some "float" ∨
        field_type = some "number" then jsParseFloat (jsToString value)
    else .fin 0
  if jsIsNaN val || !jsIsFinite val then .fin 0 else val

/-- A single-quote character, written numerically so the error-message
text below can be assembled exactly as the JSX renders it. -/
def sq : String := String.singleton (Char.ofNat 39)

/-- The rendered widget produced by `buildField`, carrying exactly the
props the source passes: the spread attribute object, the bound value,
and for text inputs the optional quick-clear affordance modelled by the
event trace its click handler would produce. -/
inductive RenderedField where
  | relatedModelFieldNode (fieldName : String) (definition : ApiFormFieldType)
  | textInput (attrs : ApiFormFieldType) (inputType : String) (value : RawValue)
      (clear : Option (List FormEvent))
  | switchInput (attrs : ApiFormFieldType) (checked : RawValue)
  | dateInput (attrs : ApiFormFieldType) (value : RawValue) (clearable : Bool)
  | numberInput (attrs : ApiFormFieldType) (value : JSNum) (precision : Nat)
  | choiceFieldNode (fieldName : String) (definition : ApiFormFieldType)
  | fileInput (attrs : ApiFormFieldType) (value : RawValue)
  | nestedObjectFieldNode (fieldName : String) (definition : ApiFormFieldType)
  | errorAlert (title : String) (message : String)
deriving DecidableEq, Repr

/-- The `buildField` switch of `ApiFormField`, dispatching on the type
tag.  `value` is the bound form value.  The text-input case records the
`value || ""` binding and the `definition.value && !definition.required`
quick-clear condition; the default case produces the inline error alert
with the exact JSX text. -/
def buildField (fieldName : String) (d : ApiFormFieldType) (value : RawValue) :
    RenderedField :=
  if d.field_type = some "related field" then
    .relatedModelFieldNode fieldName d
  else if d.field_type = some "email" ∨ d.field_type = some "url" ∨
      d.field_type = some "string" then
    .textInput (reducedDefinition d) (d.field_type.getD "")
      (if jsTruthy value then value else .str "")
      (if jsTruthy d.value && !(d.required.getD false) then
        some (genericOnChange fieldName d (.str "")) else none)
  else if d.field_type = some "boolean" then
    .switchInput (reducedDefinition d) (if jsNullish value then .bool false else value)
  else if d.field_type = some "date" then
    .dateInput (reducedDefinition d) value (!(d.required.getD false))
  else if d.field_type = some "integer" ∨ d.field_type = some "decimal" ∨
      d.field_type = some "float" ∨ d.field_type = some "number" then
    .numberInput (reducedDefinition d) (numericalValue d.field_type value)
      (if d.field_type = some "integer" then 0 else 10)
  else if d.field_type = some "choice" then
    .choiceFieldNode fieldName d
  else if d.field_type = some "file upload" then
    .fileInput (reducedDefinition d) value
  else if d.field_type = some "nested object" then
    .nestedObjectFieldNode fieldName d
  else
    .errorAlert "Error"
      ("Invalid field type for field " ++ sq ++ fieldName ++ sq ++ ": " ++ sq ++
        (d.field_type.getD "") ++ sq)

/-- The bound value prop a widget receives, when the widget takes one
directly (delegating cases pass the whole controller instead). -/
def RenderedField.boundValue : RenderedField → Option RawValue
  | .textInput _ _ v _ => some v
  | .switchInput _ c => some c
  | .dateInput _ v _ => some v
  | .numberInput _ v _ => some (.num v)
  | .fileInput _ v => some v
  | _ => none

/-- The quick-clear affordance of a rendered field: for a text input, its
`rightSection` clear icon modelled by the click-handler event trace. -/
def RenderedField.clearAffordance : RenderedField → Option (List FormEvent)
  | .textInput _ _ _ c => c
  | _ => none

/-- The `Stack` rendered by `ApiFormField`: optional pre-content, the
built field, optional post-content. -/
structure RenderedStack where
  pre : Option Nat
  field : RenderedField
  post : Option Nat
deriving DecidableEq, Repr

/-- Rendering of one `ApiFormField`: hidden fields render nothing, all
others render the stack around `buildField`. -/
def apiFormFieldRender (fieldName : String) (d : ApiFormFieldType)
    (value : RawValue) : Option RenderedStack :=
  if d.hidden.getD false then none
  else some ⟨d.preFieldContent, buildField fieldName d value, d.postFieldContent⟩

/-- The type tags the `buildField` switch recognises. -/
def recognizedFieldTypes : List String :=
  ["related field", "email", "url", "string", "boolean", "date", "integer",
    "decimal", "float", "number", "choice", "file upload", "nested object"]

/-- A record returned by the remote list endpoint.  Only the primary key
matters to the cache logic (`pk`, possibly absent), the rest of the
record is an abstract payload. -/
structure RemoteRecord where
  pk : Option Int := none
  payload : Nat := 0
deriving DecidableEq, Repr

/-- One entry of the per-field option cache, as built by
`RelatedModelField`: `value` is the identifier used for deduplication and
selection (`item.pk ?? -1`), `data` keeps the record itself. -/
structure CacheEntry where
  value : Int
  data : RemoteRecord
deriving DecidableEq, Repr

/-- The local state of one mounted `RelatedModelField`: the tracked
primary key, the pagination offset, the accumulated option cache, the
live search-input text, and its debounced copy used by the query key. -/
structure RelatedFieldState where
  pk : Option Int := none
  offset : Nat := 0
  data : List CacheEntry := []
  value : String := ""
  searchText : String := ""
deriving DecidableEq, Repr

/-- Membership test `alreadyPresentPks.includes(item.pk)` of the query
function: an absent primary key is never strictly equal to any cached
identifier, a present one matches by value. -/
def pkAlreadyPresent (pks : List Int) (pk : Option Int) : Bool :=
  match pk with
  | some p => pks.contains p
  | none => false

/-- The cache-merge step of `selectQuery.queryFn`: copy the existing
entries, compute the identifiers already present once, then push each
fetched record whose key is not among them, in result order, tagging
key-less records with the sentinel `-1`. -/
def appendResults (data : List CacheEntry) (results : List RemoteRecord) :
    List CacheEntry :=
  data ++
    (results.filter fun item => !pkAlreadyPresent (data.map (·.value)) item.pk).map
      (fun item => ⟨item.pk.getD (-1), item⟩)

/-- Outcome of one run of `selectQuery.queryFn` on the option cache: a
successful response merges the fetched page into the cache, a failed one
hits the `catch` branch, which replaces the cache with the empty list and
resolves normally (the error object is returned, not rethrown). -/
def queryFnData (data : List CacheEntry) (response : Except Unit (List RemoteRecord)) :
    List CacheEntry :=
  match response with
  | .ok results => appendResults data results
  | .error _ => []

/-- The key of `selectQuery`: the field-name tag, the component id, the
pagination offset, and the debounced search text.  A change of any
component triggers a fresh fetch. -/
def selectQueryKey (fieldName fieldId : String) (s : RelatedFieldState) :
    String × String × Nat × String :=
  ("related-field-" ++ fieldName, fieldId, s.offset, s.searchText)

/-- The `onMenuOpen` handler: clear the input text, reset the offset to
zero, and call `selectQuery.refetch()` (the returned flag records that a
refetch was issued).  The accumulated option cache is not touched. -/
def onMenuOpen (s : RelatedFieldState) : RelatedFieldState × Bool :=
  ({ s with value := "", offset := 0 }, true)

/-- The `onInputChange` handler: store the new input text, reset the
offset to zero, and clear the accumulated option cache. -/
def onInputChange (s : RelatedFieldState) (v : String) : RelatedFieldState :=
  { s with value := v, offset := 0, data := [] }

/-- The `onMenuScrollToBottom` handler: advance the offset by the page
size. -/
def onMenuScrollToBottom (limit : Nat) (s : RelatedFieldState) : RelatedFieldState :=
  { s with offset := s.offset + limit }

/-- Settling of the 250 ms debounce: the debounced search text catches up
with the live input text. -/
def debounceSettle (s : RelatedFieldState) : RelatedFieldState :=
  { s with searchText := s.value }

/-- JavaScript template-literal interpolation of an optional string, as
in the single-record URL `${definition.api_url}${field.value}/`. -/
def templateOptStr : Option String → String
  | some u => u
  | none => "undefined"

/-- What one run of the initial-value effect of `RelatedModelField` does,
before any response arrives. -/
inductive InitAction where
  | noop
  | fetchSingle (url : String)
  | clearSelection
deriving DecidableEq, Repr

/-- The initial-value effect: if the externally bound value equals the
tracked key, do nothing; if it is non-null, fetch the single record at
`api_url` followed by the value and a slash; if it is null, clear the
tracked key. -/
def initialValueEffect (api_url : Option String) (fieldValue pk : Option Int) :
    InitAction :=
  if fieldValue = pk then .noop
  else
    match fieldValue with
    | some v => .fetchSingle (templateOptStr api_url ++ toString v ++ "/")
    | none => .clearSelection

/-- Response handling of the single-record fetch: when the response
carries a record with a truthy primary key, the cache is replaced by
exactly that record and the tracked key is set to it; otherwise nothing
happens. -/
def initialValueOnSuccess (s : RelatedFieldState) (r : RemoteRecord) :
    RelatedFieldState :=
  match r.pk with
  | some p => if p ≠ 0 then { s with data := [⟨p, r⟩], pk := some p } else s
  | none => s

/-- The null branch of the initial-value effect applied to the state:
`setPk(null)`, everything else untouched. -/
def applyClearSelection (s : RelatedFieldState) : RelatedFieldState :=
  { s with pk := none }

/-- The `fieldDefinition` memo of `RelatedModelField`, spread into
`Input.Wrapper`: the definition with `onValueChange`, `adjustFilters` and
`read_only` overwritten with `undefined`.  Unlike `reducedDefinition` in
the generic renderer, `children` is kept. -/
def relatedFieldDefinition (d : ApiFormFieldType) : ApiFormFieldType :=
  { d with
    onValueChange := none
    adjustFilters := none
    read_only := none }

/-- The selected key extracted by the select widget change handler:
`value?.value ?? null`. -/
def selectedPk : Option CacheEntry → Option Int
  | some o => some o.value
  | none => none

/-- Encoding of the key written into the form state: a selected key is
written as a number, a cleared selection as `null`. -/
def pkToRaw : Option Int → RawValue
  | some p => .num (.fin p)
  | none => .null

/-- The `onChange` handler of `RelatedModelField`: extract the key of the
selected option, write it through the controller, update the tracked key,
then run the optional value-change callback with the same key. -/
def relatedOnChange (fieldName : String) (d : ApiFormFieldType)
    (opt : Option CacheEntry) : List FormEvent :=
  .formWrite fieldName (pkToRaw (selectedPk opt)) ::
    .setPkEvent (selectedPk opt) ::
      (match d.onValueChange with
       | some _ => [.valueChangeCallback (pkToRaw (selectedPk opt))]
       | none => [])

/-- Claim C2, counterexample: re-opening the selection menu does not
discard the previously accumulated options.  With one cached entry,
`onMenuOpen` leaves the option list non-empty, contradicting that the
options accumulated under the previous query are discarded at that
point. -/
theorem claim_c2_counterexample :
    (onMenuOpen
      { pk := none
        offset := 10
        data := [⟨1, ⟨some 1, 0⟩⟩]
        value := "ab"
        searchText := "ab" }).1.data ≠ [] := by
  decide

/-- Claim C2, amended: re-opening the selection menu resets the free-text
query to the empty string and the offset to 0 and issues a refetch, but
leaves the accumulated option list (and the tracked key) unchanged; the
accumulated options are instead discarded when the query text changes,
via `onInputChange`. -/
theorem claim_c2_amended (s : RelatedFieldState) :
    (onMenuOpen s).1.value = "" ∧
    (onMenuOpen s).1.offset = 0 ∧
    (onMenuOpen s).2 = true ∧
    (onMenuOpen s).1.data = s.data ∧
    (onMenuOpen s).1.pk = s.pk ∧
    (∀ v : String, (onInputChange s v).data = []) :=
  ⟨rfl, rfl, rfl, rfl, rfl, fun _ => rfl⟩

/-- Claim C10: the mount/refresh synchronisation effect leaves the bound
form value unchanged whenever the definition carries no value, and
conversely the only way it changes the bound value is by overwriting it
with a defined `definition.value`. -/
theorem claim_c10 :
    (∀ (d : ApiFormFieldType) (fv : RawValue),
      d.value = .undef → valueSyncEffect d fv = fv) ∧
    (∀ (d : ApiFormFieldType) (fv : RawValue),
      valueSyncEffect d fv ≠ fv → d.value ≠ .undef ∧ valueSyncEffect d fv = d.value) := by
  constructor
  · intro d fv h
    simp [valueSyncEffect, h]
  · intro d fv h
    by_cases hn : d.field_type = some "nested object"
    · simp [valueSyncEffect, hn] at h
    · by_cases hv : d.value = .undef
      · simp [valueSyncEffect, hn, hv] at h
      · exact ⟨hv, by simp [valueSyncEffect, hn, hv]⟩

/-- Claim C10, witness: a definition with no value leaves a user edit in
place. -/
theorem claim_c10_witness :
    (({} : ApiFormFieldType).value = .undef) ∧
    valueSyncEffect {} (.str "user edit") = .str "user edit" :=
  ⟨rfl, claim_c10.1 {} (.str "user edit") rfl⟩

/-- Claim C7, counterexample: in the related-entity field, the attribute
object spread into the widget wrapper is the definition with only
`onValueChange`, `adjustFilters` and `read_only` removed, so nested child
definitions do reach the widget layer there. -/
theorem claim_c7_counterexample :
    (relatedFieldDefinition
      { field_type := some "related field", children := some 1 }).children ≠ none := by
  decide

/-- Claim C7, amended: in the generic renderer the widget attribute
object equals the definition with exactly the value-change callback, the
filter-adjustment callback, the read-only flag and the nested child
definitions removed and every other attribute unchanged; in the
related-entity field only the first three are removed, and the nested
child definitions are passed through to the wrapper along with every
other attribute. -/
theorem claim_c7_amended (d : ApiFormFieldType) :
    ((reducedDefinition d).onValueChange = none ∧
      (reducedDefinition d).adjustFilters = none ∧
      (reducedDefinition d).read_only = none ∧
      (reducedDefinition d).children = none) ∧
    ((reducedDefinition d).label = d.label ∧
      (reducedDefinition d).value = d.value ∧
      (reducedDefinition d).default = d.default ∧
      (reducedDefinition d).icon = d.icon ∧
      (reducedDefinition d).field_type = d.field_type ∧
      (reducedDefinition d).api_url = d.api_url ∧
      (reducedDefinition d).model = d.model ∧
      (reducedDefinition d).modelRenderer = d.modelRenderer ∧
      (reducedDefinition d).filters = d.filters ∧
      (reducedDefinition d).required = d.required ∧
      (reducedDefinition d).choices = d.choices ∧
      (reducedDefinition d).hidden = d.hidden ∧
      (reducedDefinition d).disabled = d.disabled ∧
      (reducedDefinition d).placeholder = d.placeholder ∧
      (reducedDefinition d).description = d.description ∧
      (reducedDefinition d).preFieldContent = d.preFieldContent ∧
      (reducedDefinition d).postFieldContent = d.postFieldContent) ∧
    ((relatedFieldDefinition d).onValueChange = none ∧
      (relatedFieldDefinition d).adjustFilters = none ∧
      (relatedFieldDefinition d).read_only = none) ∧
    ((relatedFieldDefinition d).children = d.children ∧
      (relatedFieldDefinition d).label = d.label ∧
      (relatedFieldDefinition d).value = d.value ∧
      (relatedFieldDefinition d).default = d.default ∧
      (relatedFieldDefinition d).icon = d.icon ∧
      (relatedFieldDefinition d).field_type = d.field_type ∧
      (relatedFieldDefinition d).api_url = d.api_url ∧
      (relatedFieldDefinition d).model = d.model ∧
      (relatedFieldDefinition d).modelRenderer = d.modelRenderer ∧
      (relatedFieldDefinition d).filters = d.filters ∧
      (relatedFieldDefinition d).required = d.required ∧
      (relatedFieldDefinition d).choices = d.choices ∧
      (relatedFieldDefinition d).hidden = d.hidden ∧
      (relatedFieldDefinition d).disabled = d.disabled ∧
      (relatedFieldDefinition d).placeholder = d.placeholder ∧
      (relatedFieldDefinition d).description = d.description ∧
      (relatedFieldDefinition d).preFieldContent = d.preFieldContent ∧
      (relatedFieldDefinition d).postFieldContent = d.postFieldContent) := by
  refine ⟨⟨rfl, rfl, rfl, rfl⟩, ?_, ⟨rfl, rfl, rfl⟩, ?_⟩ <;>
    simp [reducedDefinition, relatedFieldDefinition]

/-- Claim C8: in both change handlers, the new value is first written
into the form-state container under the field name and then handed to
the optional value-change callback, in that order (the related-entity
handler updates its tracked key in between). -/
theorem claim_c8 (fieldName : String) (d : ApiFormFieldType) (cb : Nat) (v : RawValue)
    (opt : Option CacheEntry) (h : d.onValueChange = some cb) :
    genericOnChange fieldName d v =
      [.formWrite fieldName v, .valueChangeCallback v] ∧
    relatedOnChange fieldName d opt =
      [.formWrite fieldName (pkToRaw (selectedPk opt)),
        .setPkEvent (selectedPk opt),
        .valueChangeCallback (pkToRaw (selectedPk opt))] := by
  constructor <;> simp [genericOnChange, relatedOnChange, h]

/-- Claim C8, witness: a concrete definition with a callback produces
the write followed by the callback. -/
theorem claim_c8_witness :
    (({ onValueChange := some 0 } : ApiFormFieldType).onValueChange = some 0) ∧
    genericOnChange "part" { onValueChange := some 0 } (.str "v") =
      [.formWrite "part" (.str "v"), .valueChangeCallback (.str "v")] :=
  ⟨rfl, (claim_c8 "part" { onValueChange := some 0 } 0 (.str "v") none rfl).1⟩

/-- Claim C6: a non-null bound value differing from the tracked key
issues exactly the one single-record fetch for that identifier; a
successful response replaces the cache with exactly that record and sets
the tracked key to its identifier, after which re-running the effect
issues no further fetch; a null bound value clears the tracked key while
leaving the cache untouched. -/
theorem claim_c6 (api_url : Option String) (v : Int) (pk : Option Int)
    (s : RelatedFieldState) (r : RemoteRecord) (p : Int)
    (hne : some v ≠ pk) (hr : r.pk = some p) (hp : p ≠ 0) :
    initialValueEffect api_url (some v) pk =
      .fetchSingle (templateOptStr api_url ++ toString v ++ "/") ∧
    initialValueOnSuccess s r = { s with data := [⟨p, r⟩], pk := some p } ∧
    initialValueEffect api_url (some v) (some v) = .noop ∧
    (∀ pk2 : Option Int, pk2 ≠ none →
      initialValueEffect api_url none pk2 = .clearSelection) ∧
    (∀ s2 : RelatedFieldState,
      (applyClearSelection s2).pk = none ∧ (applyClearSelection s2).data = s2.data) := by
  refine ⟨?_, ?_, ?_, ?_, fun s2 => ⟨rfl, rfl⟩⟩
  · simp [initialValueEffect, hne]
  · simp [initialValueOnSuccess, hr, hp]
  · simp [initialValueEffect]
  · intro pk2 h2
    have hno : ¬((none : Option Int) = pk2) := fun hh => h2 hh.symm
    simp [initialValueEffect, hno]

/-- Claim C6, witness: bound value 42 with no tracked key fetches exactly
the record 42 from the configured endpoint. -/
theorem claim_c6_witness :
    ((some (42 : Int)) ≠ (none : Option Int)) ∧
    initialValueEffect (some "/api/part/") (some 42) none =
      .fetchSingle "/api/part/42/" :=
  ⟨by decide,
    (claim_c6 (some "/api/part/") 42 none {} ⟨some 42, 0⟩ 42 (by decide) rfl
      (by decide)).1⟩

/-- Claim C9: a failed list-search fetch clears the option list to the
empty list (the `catch` branch resolves normally instead of raising),
and a retry remains possible because both scrolling and a settled query
change alter the query key, which triggers a fresh fetch. -/
theorem claim_c9 (data : List CacheEntry) (fn fid : String) (s : RelatedFieldState)
    (limit : Nat) (v : String) (hlim : 0 < limit) (hv : v ≠ s.searchText) :
    queryFnData data (.error ()) = [] ∧
    selectQueryKey fn fid (onMenuScrollToBottom limit s) ≠ selectQueryKey fn fid s ∧
    selectQueryKey fn fid (debounceSettle (onInputChange s v)) ≠ selectQueryKey fn fid s := by
  refine ⟨rfl, ?_, ?_⟩
  · intro h
    have h2 := congrArg (fun t => t.2.2.1) h
    simp [selectQueryKey, onMenuScrollToBottom] at h2
    omega
  · intro h
    have h2 := congrArg (fun t => t.2.2.2) h
    simp [selectQueryKey, debounceSettle, onInputChange] at h2
    exact hv h2

/-- Claim C9, witness: a failed fetch on a non-empty cache leaves the
empty option list. -/
theorem claim_c9_witness :
    (0 < 10) ∧ queryFnData [⟨1, ⟨some 1, 0⟩⟩] (.error ()) = [] :=
  ⟨by decide,
    (claim_c9 [⟨1, ⟨some 1, 0⟩⟩] "f" "fid" {} 10 "q" (by decide) (by decide)).1⟩

/-- Claim C5, counterexample: an optional text field whose bound form
value is the non-empty string `foo` but whose definition carries no
`value` attribute renders no quick-clear affordance, because the
affordance condition tests `definition.value`, not the bound value. -/
theorem claim_c5_counterexample :
    (buildField "x" { field_type := some "string" } (.str "foo")).clearAffordance
      = none := by
  decide

/-- Claim C5, amended: a required text field never renders the
quick-clear affordance (in particular when bound to the empty string);
whatever the bound form value, the affordance is rendered exactly when
the definition carries a truthy `value` attribute and the field is not
required (so an optional field with a falsy definition value renders
none, even if the bound value is non-empty); when rendered, activating
it first writes the empty string into the bound form value. -/
theorem claim_c5_amended (fieldName : String) (d : ApiFormFieldType) (v : RawValue)
    (htext : d.field_type = some "email" ∨ d.field_type = some "url" ∨
      d.field_type = some "string") :
    (d.required = some true →
      (buildField fieldName d v).clearAffordance = none) ∧
    ((buildField fieldName d v).clearAffordance ≠ none ↔
      jsTruthy d.value = true ∧ d.required.getD false = false) ∧
    (d.required.getD false = false → jsTruthy d.value = true →
      (buildField fieldName d v).clearAffordance =
        some (genericOnChange fieldName d (.str "")) ∧
      (genericOnChange fieldName d (.str "")).head? =
        some (.formWrite fieldName (.str ""))) := by
  refine ⟨?_, ?_, ?_⟩
  · intro hreq
    rcases htext with h | h | h <;>
      simp [buildField, h, RenderedField.clearAffordance, hreq]
  · rcases htext with h | h | h <;>
      cases htv : jsTruthy d.value <;> cases hrq : d.required.getD false <;>
        simp [buildField, h, RenderedField.clearAffordance, htv, hrq]
  · intro hreq htr
    refine ⟨?_, by simp [genericOnChange]⟩
    rcases htext with h | h | h <;>
      simp [buildField, h, RenderedField.clearAffordance, hreq, htr]

/-- Claim C5, witness: an optional text field whose definition supplies
the value `foo` renders the affordance, and its click handler writes the
empty string. -/
theorem claim_c5_amended_witness :
    (({ field_type := some "string", value := .str "foo" } :
        ApiFormFieldType).required.getD false = false) ∧
    (buildField "x" { field_type := some "string", value := .str "foo" }
        (.str "foo")).clearAffordance =
      some (genericOnChange "x" { field_type := some "string", value := .str "foo" }
        (.str "")) :=
  ⟨rfl,
    ((claim_c5_amended "x" { field_type := some "string", value := .str "foo" }
      (.str "foo") (Or.inr (Or.inr rfl))).2.2 rfl (by decide)).1⟩

/-- Claim C3: an `integer` field whose bound value fails to parse as an
integer (or parses to a non-finite result) coerces to exactly 0; a
`decimal`, `float` or `number` field whose bound value fails to parse as
a floating-point number coerces to exactly 0; for every other type tag
the bound value reaches its widget without numeric coercion — text
widgets receive the bound string itself, the boolean toggle the bound
boolean itself, and the date and file widgets the raw value unchanged. -/
theorem claim_c3 :
    (∀ v : RawValue,
      jsIsNaN (jsParseInt (jsToString v)) = true ∨
        jsIsFinite (jsParseInt (jsToString v)) = false →
      numericalValue (some "integer") v = .fin 0) ∧
    (∀ ft : String, ft = "decimal" ∨ ft = "float" ∨ ft = "number" →
      ∀ v : RawValue, jsIsNaN (jsParseFloat (jsToString v)) = true →
      numericalValue (some ft) v = .fin 0) ∧
    (∀ (n : String) (d : ApiFormFieldType) (s : String),
      d.field_type = some "email" ∨ d.field_type = some "url" ∨
        d.field_type = some "string" →
      (buildField n d (.str s)).boundValue = some (.str s)) ∧
    (∀ (n : String) (d : ApiFormFieldType) (b : Bool),
      d.field_type = some "boolean" →
      (buildField n d (.bool b)).boundValue = some (.bool b)) ∧
    (∀ (n : String) (d : ApiFormFieldType) (v : RawValue),
      d.field_type = some "date" →
      (buildField n d v).boundValue = some v) ∧
    (∀ (n : String) (d : ApiFormFieldType) (v : RawValue),
      d.field_type = some "file upload" →
      (buildField n d v).boundValue = some v) := by
  refine ⟨?_, ?_, ?_, ?_, ?_, ?_⟩
  · intro v h
    rcases h with h | h <;> simp [numericalValue, h]
  · intro ft hft v h
    rcases hft with hf | hf | hf <;> subst hf <;> simp [numericalValue, h]
  · intro n d s0 h
    have hval : (if jsTruthy (.str s0) then RawValue.str s0 else .str "") = .str s0 := by
      by_cases hs : s0 = "" <;> simp [jsTruthy, hs]
    rcases h with h | h | h <;>
      simp [buildField, h, RenderedField.boundValue, hval]
  · intro n d b h
    simp [buildField, h, RenderedField.boundValue, jsNullish]
  · intro n d v h
    simp [buildField, h, RenderedField.boundValue]
  · intro n d v h
    simp [buildField, h, RenderedField.boundValue]

/-- Claim C3, witness: the non-numeric string `abc` coerces to 0 under
the integer type, `xyz` coerces to 0 under the float type, and a string
field passes the bound string through unchanged. -/
theorem claim_c3_witness :
    (jsIsNaN (jsParseInt (jsToString (.str "abc"))) = true) ∧
    numericalValue (some "integer") (.str "abc") = .fin 0 ∧
    numericalValue (some "float") (.str "xyz") = .fin 0 ∧
    (buildField "name" { field_type := some "string" } (.str "foo")).boundValue =
      some (.str "foo") :=
  ⟨by decide,
    claim_c3.1 (.str "abc") (Or.inl (by decide)),
    claim_c3.2.1 "float" (Or.inr (Or.inl rfl)) (.str "xyz") (by decide),
    claim_c3.2.2.1 "name" { field_type := some "string" } "foo" (Or.inr (Or.inr rfl))⟩

/-- Claim C4: a non-hidden field whose type tag is a string outside the
recognised set renders the inline error alert, whose message contains
both the field name and the invalid type string; the dispatch is a total
function, so rendering cannot throw. -/
theorem claim_c4 (fieldName ft : String) (d : ApiFormFieldType) (v : RawValue)
    (hft : d.field_type = some ft) (hunrec : ft ∉ recognizedFieldTypes)
    (hvis : d.hidden.getD false = false) :
    apiFormFieldRender fieldName d v =
      some ⟨d.preFieldContent,
        .errorAlert "Error"
          ("Invalid field type for field " ++ sq ++ fieldName ++ sq ++ ": " ++ sq ++
            ft ++ sq),
        d.postFieldContent⟩ ∧
    (∃ a b : String,
      "Invalid field type for field " ++ sq ++ fieldName ++ sq ++ ": " ++ sq ++
          ft ++ sq
        = a ++ fieldName ++ b) ∧
    (∃ a b : String,
      "Invalid field type for field " ++ sq ++ fieldName ++ sq ++ ": " ++ sq ++
          ft ++ sq
        = a ++ ft ++ b) := by
  simp only [recognizedFieldTypes, List.mem_cons, List.not_mem_nil, or_false,
    not_or] at hunrec
  obtain ⟨h1, h2, h3, h4, h5, h6, h7, h8, h9, h10, h11, h12, h13⟩ := hunrec
  refine ⟨?_,
    ⟨"Invalid field type for field " ++ sq, sq ++ ": " ++ sq ++ ft ++ sq, ?_⟩,
    ⟨"Invalid field type for field " ++ sq ++ fieldName ++ sq ++ ": " ++ sq, sq, ?_⟩⟩
  · simp [apiFormFieldRender, hvis, buildField, hft, h1, h2, h3, h4, h5, h6, h7,
      h8, h9, h10, h11, h12, h13]
  · simp [String.append_assoc]
  · simp [String.append_assoc]

/-- Claim C4, witness: a field named `quantity` with the unrecognised
type tag `wrong` renders the error alert naming both. -/
theorem claim_c4_witness :
    ("wrong" ∉ recognizedFieldTypes) ∧
    apiFormFieldRender "quantity" { field_type := some "wrong" } .null =
      some ⟨none,
        .errorAlert "Error"
          ("Invalid field type for field " ++ sq ++ "quantity" ++ sq ++ ": " ++ sq ++
            "wrong" ++ sq),
        none⟩ :=
  ⟨by decide,
    (claim_c4 "quantity" "wrong" { field_type := some "wrong" } .null rfl
      (by decide) rfl).1⟩

/-- A present primary key is already present exactly when it occurs among
the cached identifiers. -/
theorem pkAlreadyPresent_some (pks : List Int) (p : Int) :
    pkAlreadyPresent pks (some p) = true ↔ p ∈ pks := by
  simp [pkAlreadyPresent, List.contains, List.elem_iff]

/-- Claim C1: for a list fetch whose records all expose an identifier and
which contains a record whose identifier is already the unique occupant
of a cache slot, merging the fetch leaves exactly one cache entry for
that identifier; merging the same fetch twice equals merging it once;
and the existing cache is a prefix of the merged cache, with the newly
appended records in fetch order. -/
theorem claim_c1 (data : List CacheEntry) (results : List RemoteRecord) (i : Int)
    (hpk : ∀ r ∈ results, r.pk ≠ none)
    (hin : ∃ r ∈ results, r.pk = some i)
    (hone : (data.filter fun e => e.value == i).length = 1) :
    ((appendResults data results).filter fun e => e.value == i).length = 1 ∧
    appendResults (appendResults data results) results = appendResults data results ∧
    data <+: appendResults data results ∧
    List.Sublist (((appendResults data results).drop data.length).map CacheEntry.data)
      results := by
  have hne : (data.filter fun e => e.value == i) ≠ [] := by
    intro hnil
    rw [hnil] at hone
    simp at hone
  obtain ⟨e, he⟩ := List.exists_mem_of_ne_nil _ hne
  obtain ⟨hemem, hbeq⟩ := List.mem_filter.mp he
  have hev : e.value = i := by simpa using hbeq
  have himem : i ∈ data.map (fun x => x.value) := List.mem_map.mpr ⟨e, hemem, hev⟩
  have htail : ∀ e2 ∈ (results.filter fun item =>
      !pkAlreadyPresent (data.map (·.value)) item.pk).map
        (fun item => (⟨item.pk.getD (-1), item⟩ : CacheEntry)),
      e2.value ∉ data.map (fun x => x.value) := by
    intro e2 he2
    obtain ⟨item, hif, rfl⟩ := List.mem_map.mp he2
    obtain ⟨hires, hg⟩ := List.mem_filter.mp hif
    obtain ⟨p0, hp0⟩ := Option.ne_none_iff_exists'.mp (hpk item hires)
    rw [hp0] at hg ⊢
    simp only [Option.getD_some]
    intro hmem
    have hpres : pkAlreadyPresent (data.map (fun x => x.value)) (some p0) = true :=
      (pkAlreadyPresent_some _ _).mpr hmem
    rw [hpres] at hg
    simp at hg
  refine ⟨?_, ?_, ?_, ?_⟩
  · simp only [appendResults]
    rw [List.filter_append, List.length_append, hone]
    have hzero : (((results.filter fun item =>
        !pkAlreadyPresent (data.map (·.value)) item.pk).map
          (fun item => (⟨item.pk.getD (-1), item⟩ : CacheEntry))).filter
            fun e2 => e2.value == i).length = 0 := by
      rw [List.length_eq_zero, List.filter_eq_nil_iff]
      intro e2 he2
      simp only [beq_iff_eq]
      intro hcontra
      exact htail e2 he2 (by rw [hcontra]; exact himem)
    omega
  · have hfil : (results.filter fun item =>
        !pkAlreadyPresent ((appendResults data results).map (·.value)) item.pk) = [] := by
      rw [List.filter_eq_nil_iff]
      intro item hires
      obtain ⟨p0, hp0⟩ := Option.ne_none_iff_exists'.mp (hpk item hires)
      rw [hp0]
      simp only [Bool.not_eq_true', Bool.not_eq_false, pkAlreadyPresent_some]
      by_cases hc : p0 ∈ data.map (fun x => x.value)
      · simp only [appendResults, List.map_append]
        exact List.mem_append_left _ hc
      · have hg : (!pkAlreadyPresent (data.map (·.value)) item.pk) = true := by
          rw [hp0, Bool.not_eq_true']
          cases hb : pkAlreadyPresent (data.map (fun x => x.value)) (some p0) with
          | false => rfl
          | true => exact absurd ((pkAlreadyPresent_some _ _).mp hb) hc
        have hif : item ∈ results.filter fun item2 =>
            !pkAlreadyPresent (data.map (·.value)) item2.pk :=
          List.mem_filter.mpr ⟨hires, hg⟩
        have hmm : (⟨item.pk.getD (-1), item⟩ : CacheEntry) ∈
            (results.filter fun item2 =>
              !pkAlreadyPresent (data.map (·.value)) item2.pk).map
                (fun item2 => (⟨item2.pk.getD (-1), item2⟩ : CacheEntry)) :=
          List.mem_map.mpr ⟨item, hif, rfl⟩
        simp only [appendResults, List.map_append]
        refine List.mem_append_right _ ?_
        refine List.mem_map.mpr ⟨⟨item.pk.getD (-1), item⟩, hmm, ?_⟩
        simp [hp0]
    have hsplit : appendResults (appendResults data results) results
        = appendResults data results ++
          ((results.filter fun item =>
            !pkAlreadyPresent ((appendResults data results).map (·.value)) item.pk).map
              (fun item => (⟨item.pk.getD (-1), item⟩ : CacheEntry))) := rfl
    rw [hsplit, hfil]
    simp
  · exact List.prefix_append _ _
  · have hdrop : (appendResults data results).drop data.length
        = (results.filter fun item =>
            !pkAlreadyPresent (data.map (·.value)) item.pk).map
              (fun item => (⟨item.pk.getD (-1), item⟩ : CacheEntry)) :=
      List.drop_left _ _
    rw [hdrop, List.map_map]
    have hid : (CacheEntry.data ∘ fun item =>
        (⟨item.pk.getD (-1), item⟩ : CacheEntry)) = id := rfl
    rw [hid, List.map_id]
    exact List.filter_sublist _

/-- Claim C1, witness: a cache holding the record with identifier 5
merged with a page that contains identifier 5 again (an overlapping
page) still holds exactly one entry for identifier 5. -/
theorem claim_c1_witness :
    ((([⟨5, ⟨some 5, 0⟩⟩] : List CacheEntry).filter fun e => e.value == 5).length = 1) ∧
    ((appendResults [⟨5, ⟨some 5, 0⟩⟩] [⟨some 5, 1⟩, ⟨some 7, 2⟩]).filter
      fun e => e.value == 5).length = 1 :=
  ⟨by decide,
    (claim_c1 [⟨5, ⟨some 5, 0⟩⟩] [⟨some 5, 1⟩, ⟨some 7, 2⟩] 5 (by decide)
      ⟨⟨some 5, 1⟩, by decide, rfl⟩ (by decide)).1⟩

end InvenTree
